import Mathlib

/-!
Shallow embedding of the falling-sand cellular-automata engine from
hakolao/compute_shader_tutorial (src/src/matter.rs, src/src/utils.rs,
src/src/ca_simulator.rs, constants from src/src/main.rs).

Machine integers (`u32`, `u8`, `i32`) are modelled as `Nat`/`Int`; all values
that arise stay far below `2^32`, and wherever wrap-around could matter it is
made explicit.  Rust `f32` arithmetic in the colour path is modelled by exact
rational arithmetic (`ℚ`); the claims proved below constrain colour channels
only through the low (matter-id) byte of the packed cell, which the colour
channels cannot reach, and the two concrete channel values that are computed
(the grey-scaled palette) agree with the `f32` evaluation.

The GLSL compute shaders (compute_shaders/fall_empty.glsl,
slide_down_empty.glsl, color.glsl, draw_matter.glsl, query_matter.glsl) are
referenced by src/src/ca_simulator.rs but are not part of src/; every
definition that stands in for one of them is marked `Modelled from the spec:`.
-/

namespace CST

/-- Constant from src/src/main.rs: `CANVAS_SIZE_X: u32 = 512`. -/
def CANVAS_SIZE_X : Nat := 512

/-- Constant from src/src/main.rs: `CANVAS_SIZE_Y: u32 = 512`. -/
def CANVAS_SIZE_Y : Nat := 512

/-- Constant from src/src/main.rs: `LOCAL_SIZE_X: u32 = 32` (compute tile width). -/
def LOCAL_SIZE_X : Nat := 32

/-- Constant from src/src/main.rs: `LOCAL_SIZE_Y: u32 = 32` (compute tile height). -/
def LOCAL_SIZE_Y : Nat := 32

/-- Constant from src/src/main.rs: `GREY_SCALE: bool = true`. -/
def GREY_SCALE : Bool := true

/-- Constant from src/src/main.rs:
`EMPTY_COLOR: u32 = if GREY_SCALE \x7b 0xffffffff \x7d else \x7b 0x0 \x7d`. -/
def EMPTY_COLOR : Nat := if GREY_SCALE then 0xffffffff else 0x0

/-- The matter enum from src/src/matter.rs: `Empty = 0, Sand = 1, Wood = 2`
(`#[repr(u8)]`). -/
inductive MatterId
  | Empty
  | Sand
  | Wood
deriving DecidableEq, Repr

/-- The `#[repr(u8)]` discriminant of a `MatterId` (Rust `matter_id as u8`). -/
def MatterId.toByte : MatterId → Nat
  | .Empty => 0
  | .Sand => 1
  | .Wood => 2

/-- Embedding of `impl From<u8> for MatterId` (src/src/matter.rs lines 23-27),
which is `unsafe \x7b std::mem::transmute(item) \x7d`.  A transmute of a `u8`
into a fieldless `#[repr(u8)]` enum is defined behaviour only when the byte is
one of the declared discriminants 0, 1, 2; for any other byte the result is
undefined behaviour, modelled here as `none`. -/
def MatterId.fromByte : Nat → Option MatterId
  | 0 => some .Empty
  | 1 => some .Sand
  | 2 => some .Wood
  | _ => none

/-- Embedding of `utils::u8_rgba_to_u32_rgba` (src/src/utils.rs lines 127-129):
`((r as u32) << 24) | ((g as u32) << 16) | ((b as u32) << 8) | (a as u32 & 255)`.
Arguments are `u8` values (below 256), so the packed value is below `2^32`. -/
def u8_rgba_to_u32_rgba (r g b a : Nat) : Nat :=
  (r <<< 24) ||| (g <<< 16) ||| (b <<< 8) ||| (a &&& 255)

/-- Embedding of `utils::u32_rgba_to_u8_rgba` (src/src/utils.rs lines 118-124),
returning `[r, g, b, a]` as a tuple. -/
def u32_rgba_to_u8_rgba (num : Nat) : Nat × Nat × Nat × Nat :=
  let a := num &&& 255
  let b := (num >>> 8) &&& 255
  let g := (num >>> 16) &&& 255
  let r := (num >>> 24) &&& 255
  (r, g, b, a)

/-- Embedding of `utils::grey_scale_u32` (src/src/utils.rs lines 133-140).
The Rust source computes `(0.299 * color[0] as f32) as u8` and friends; the
cast truncates, modelled by `Nat` division (`299 * c / 1000`).  For every
channel value fed to this function by the fixed palette the `f32` product is
far enough from an integer that exact rational and `f32` evaluation truncate
to the same byte.  The sum `y = r + g + b` is a `u8` addition, hence `% 256`
(no overflow occurs for the palette colours). -/
def grey_scale_u32 (color : Nat) : Nat :=
  let c := u32_rgba_to_u8_rgba color
  let r := 299 * c.1 / 1000
  let g := 587 * c.2.1 / 1000
  let b := 114 * c.2.2.1 / 1000
  let y := (r + g + b) % 256
  u8_rgba_to_u32_rgba y y y 255

/-- Embedding of `MatterId::color_rgba_u8` (src/src/matter.rs lines 30-41). -/
def MatterId.color_rgba_u8 (m : MatterId) : Nat × Nat × Nat × Nat :=
  let color :=
    match m with
    | .Empty => EMPTY_COLOR
    | .Sand => 0xc2b280ff
    | .Wood => 0xba8c63ff
  if GREY_SCALE then u32_rgba_to_u8_rgba (grey_scale_u32 color)
  else u32_rgba_to_u8_rgba color

/-- Embedding of `MatterId::color_rgba_f32` (src/src/matter.rs lines 54-62):
each `u8` channel divided by 255.0, modelled in `ℚ`. -/
def MatterId.color_rgba_f32 (m : MatterId) : ℚ × ℚ × ℚ × ℚ :=
  let rgba := m.color_rgba_u8
  ((rgba.1 : ℚ) / 255, (rgba.2.1 : ℚ) / 255, (rgba.2.2.1 : ℚ) / 255,
    (rgba.2.2.2 : ℚ) / 255)

/-- Rust `f32::clamp(lo, hi)` on rationals. -/
def clampQ (x lo hi : ℚ) : ℚ := min hi (max lo x)

/-- Embedding of `MatterId::gen_variate_color_rgba_u8` (src/src/matter.rs
lines 43-52).  The sample `p` stands for `rand::thread_rng().gen::<f32>()`,
a value in `[0, 1)`; it is taken as an explicit parameter so the codec is a
pure function of the rng state.  `(x * 255.0) as u8` truncates the
non-negative clamped product, modelled by `Int.floor` and `toNat`. -/
def MatterId.gen_variate_color_rgba_u8 (m : MatterId) (p : ℚ) :
    Nat × Nat × Nat × Nat :=
  let color := m.color_rgba_f32
  let variation : ℚ := -(1 / 10) + (2 / 10) * p
  let r := (⌊clampQ (color.1 + variation) 0 1 * 255⌋).toNat
  let g := (⌊clampQ (color.2.1 + variation) 0 1 * 255⌋).toNat
  let b := (⌊clampQ (color.2.2.1 + variation) 0 1 * 255⌋).toNat
  (r, g, b, 255)

/-- The packed cell type from src/src/matter.rs lines 65-68: a single `u32`
holding 24 colour bits and the matter id in the low byte. -/
structure MatterWithColor where
  value : Nat
deriving DecidableEq, Repr

/-- Embedding of `MatterWithColor::new` (src/src/matter.rs lines 71-80):
non-empty matter gets a jittered colour (driven by the rng sample `p`), empty
matter the fixed background colour; the low byte is the matter discriminant. -/
def MatterWithColor.new (matter_id : MatterId) (p : ℚ) : MatterWithColor :=
  let color :=
    if matter_id ≠ MatterId.Empty then matter_id.gen_variate_color_rgba_u8 p
    else matter_id.color_rgba_u8
  ⟨u8_rgba_to_u32_rgba color.1 color.2.1 color.2.2.1 matter_id.toByte⟩

/-- Embedding of `impl From<u32> for MatterWithColor` (src/src/matter.rs
lines 87-93). -/
def MatterWithColor.fromValue (v : Nat) : MatterWithColor := ⟨v⟩

/-- Embedding of `MatterWithColor::matter_id` (src/src/matter.rs lines 82-84):
`((self.value & 255) as u8).into()`.  The `.into()` is the partial transmute
modelled by `MatterId.fromByte`. -/
def MatterWithColor.matter_id (c : MatterWithColor) : Option MatterId :=
  MatterId.fromByte (c.value &&& 255)

/-- Embedding of `bevy::math::IVec2` as used for grid positions (`i32` pair). -/
structure IVec2 where
  x : Int
  y : Int
deriving DecidableEq, Repr

/-- Contents of one `width * height` cell buffer, keyed by cell coordinates
(the Rust buffers are row-major `u32` arrays with `index(x,y) = y*width + x`;
the simulator only ever addresses them through in-bounds `(x, y)` pairs, so
the buffer is modelled as its contents function). -/
def Buf := Int → Int → Nat

/-- The `empty_matter` specialization constant handed to every compute shader
in `CASimulator::new` (src/src/ca_simulator.rs line 82):
`MatterWithColor::new(MatterId::Empty).value`.  Encoding `Empty` never
consults the rng, so the sample argument is irrelevant; `0` is used. -/
def empty_matter : Nat := (MatterWithColor.new MatterId.Empty 0).value

/-- A cell is empty when it holds the canonical empty cell value.  Empty cells
are only ever written as the canonical `empty_matter` constant (encoding Empty
applies no jitter), which the shaders receive as a specialization constant,
so matter passes can recognise emptiness by comparing the whole `u32`. -/
def isEmptyCell (v : Nat) : Bool := v == empty_matter

/-- Embedding of `CASimulator::is_inside` (src/src/ca_simulator.rs
lines 181-183). -/
def is_inside (pos : IVec2) : Bool :=
  decide (0 ≤ pos.x) && decide (pos.x < (CANVAS_SIZE_X : Int)) &&
    decide (0 ≤ pos.y) && decide (pos.y < (CANVAS_SIZE_Y : Int))

/-- The five compute pipelines created in `CASimulator::new`. -/
inductive Pass
  | fall
  | slide
  | color
  | draw
  | query
deriving DecidableEq, Repr

/-- Observable events of a simulator run, recorded in order: every pipeline
dispatch together with its buffer-swap flag (`CASimulator::dispatch`), every
`move_step += 1` (`CASimulator::step_movement`) and every `sim_step += 1`
(`CASimulator::step`). -/
inductive Ev
  | dispatched (p : Pass) (swap : Bool)
  | incMove
  | incSim
deriving DecidableEq, Repr

/-- Modelled from the spec: compute_shaders/fall_empty.glsl is not in src/.
Spec 4.3: in the fall pass each cell may migrate to the cell directly below
if that cell is empty; decisions read only the previous snapshot, and exactly
one writer targets each destination.  Down is decreasing `y` (the repository
test expects the sand to arrive at `pos + (0, -1)`).  Each destination cell is
computed from the snapshot: an empty cell receives the occupied cell directly
above it (when that neighbour exists), an occupied cell with an empty
in-bounds cell below vacates to `empty_matter`, anything else is copied. -/
def fallPass (buf : Buf) : Buf := fun x y =>
  if isEmptyCell (buf x y) then
    if is_inside ⟨x, y + 1⟩ && !isEmptyCell (buf x (y + 1)) then buf x (y + 1)
    else buf x y
  else
    if is_inside ⟨x, y - 1⟩ && isEmptyCell (buf x (y - 1)) then empty_matter
    else buf x y

/-- Direction of a diagonal slide. -/
inductive SlideDir
  | left
  | right
deriving DecidableEq, Repr

/-- The x coordinate one step in the given direction. -/
def slideTargetX : SlideDir → Int → Int
  | .left, x => x - 1
  | .right, x => x + 1

/-- The opposite slide direction. -/
def otherDir : SlideDir → SlideDir
  | .left => .right
  | .right => .left

/-- Modelled from the spec: the slide pass alternates its tie-break direction
by the parity of `move_step` (spec 4.3, "alternating left/right preference by
parity of move_substep_count"). -/
def slidePref (move_step : Nat) : SlideDir :=
  if move_step % 2 == 0 then .left else .right

/-- Whether the diagonal-below target in direction `d` is in bounds and
empty in the snapshot. -/
def canSlide (buf : Buf) (x y : Int) (d : SlideDir) : Bool :=
  is_inside ⟨slideTargetX d x, y - 1⟩ && isEmptyCell (buf (slideTargetX d x) (y - 1))

/-- Modelled from the spec: compute_shaders/slide_down_empty.glsl is not in
src/.  Spec 4.3: a cell may slide diagonally down-left or down-right only when
the cell directly below is occupied (or the floor) and a diagonal target is
free; the preferred direction alternates with the parity of `move_step`.
This computes, from the snapshot only, the direction an occupied cell
attempts this pass (`none` when it does not slide). -/
def slideDir (buf : Buf) (ms : Nat) (x y : Int) : Option SlideDir :=
  if isEmptyCell (buf x y) then none
  else if is_inside ⟨x, y - 1⟩ && isEmptyCell (buf x (y - 1)) then none
  else
    let p := slidePref ms
    if canSlide buf x y p then some p
    else if canSlide buf x y (otherDir p) then some (otherDir p)
    else none

/-- Modelled from the spec: the source cell an empty destination accepts this
pass.  Two occupied cells can attempt the same empty destination (one sliding
down-left, the other down-right); the destination deterministically accepts
the one matching the preferred parity direction first, so only one writer ever
targets a given cell (spec 4.3, write-once-per-destination). -/
def acceptedSource (buf : Buf) (ms : Nat) (x y : Int) : Option (Int × Int) :=
  if !isEmptyCell (buf x y) then none
  else
    let fromRight := slideDir buf ms (x + 1) (y + 1) == some .left
    let fromLeft := slideDir buf ms (x - 1) (y + 1) == some .right
    match slidePref ms with
    | .left => if fromRight then some (x + 1, y + 1)
               else if fromLeft then some (x - 1, y + 1) else none
    | .right => if fromLeft then some (x - 1, y + 1)
                else if fromRight then some (x + 1, y + 1) else none

/-- Modelled from the spec: the full slide pass.  A destination that accepts a
slider receives its cell value; a slider whose target accepted it vacates to
`empty_matter`; every other cell is copied from the snapshot. -/
def slidePass (buf : Buf) (ms : Nat) : Buf := fun x y =>
  match acceptedSource buf ms x y with
  | some src => buf src.1 src.2
  | none =>
    match slideDir buf ms x y with
    | some d =>
      if acceptedSource buf ms (slideTargetX d x) (y - 1) == some (x, y) then
        empty_matter
      else buf x y
    | none => buf x y

/-- Modelled from the spec: the colour a cell contributes to the OutputImage
(the 24 colour bits above the matter byte; spec 4.3 step 3, "writes the
decoded color of every cell"). -/
def cellColor (v : Nat) : Nat := v >>> 8

/-- Modelled from the spec: compute_shaders/color.glsl is not in src/.  The
colouring pass reads the current front buffer and writes the decoded colour of
every in-bounds cell into the OutputImage; it writes nothing else. -/
def colorPassImage (buf : Buf) (img : Int → Int → Nat) : Int → Int → Nat :=
  fun x y => if is_inside ⟨x, y⟩ then cellColor (buf x y) else img x y

/-- Euclidean distance squared (in `ℚ`) from point `p` to the segment from
`a` to `b`; when the segment is degenerate this is the distance to `a`. -/
def segDistSq (p a b : ℚ × ℚ) : ℚ :=
  let abx := b.1 - a.1
  let aby := b.2 - a.2
  let apx := p.1 - a.1
  let apy := p.2 - a.2
  let denom := abx ^ 2 + aby ^ 2
  if denom = 0 then apx ^ 2 + apy ^ 2
  else
    let t := max 0 (min 1 ((apx * abx + apy * aby) / denom))
    (p.1 - (a.1 + t * abx)) ^ 2 + (p.2 - (a.2 + t * aby)) ^ 2

/-- Modelled from the spec: compute_shaders/draw_matter.glsl is not in src/.
Spec 4.4: every in-bounds cell whose rounded distance to the drawn stroke is
at most `radius` receives the pre-encoded cell value (the value is encoded
once per `draw_matter` call on the host, src/src/ca_simulator.rs line 237).
For a non-negative radius and distance `d ≥ 0`, Rust `d.round() <= radius`
(round half away from zero) holds exactly when `d < ⌊radius⌋ + 1/2`, which is
compared here on squared distances to stay in `ℚ`. -/
def drawPass (buf : Buf) (a b : ℚ × ℚ) (radius : ℚ) (val : Nat) : Buf :=
  fun x y =>
    if is_inside ⟨x, y⟩ &&
        decide (segDistSq ((x : ℚ), (y : ℚ)) a b < ((⌊radius⌋ : ℚ) + 1 / 2) ^ 2)
    then val
    else buf x y

/-- The simulator state from src/src/ca_simulator.rs lines 41-59, restricted
to the fields with simulation meaning (queues, pipeline handles and descriptor
plumbing carry no state).  `query_matter` is the one-element staging buffer;
`log` records the dispatch/counter events in order. -/
structure CASimulator where
  matter_in : Buf
  matter_out : Buf
  query_matter : Nat
  image : Int → Int → Nat
  sim_step : Nat
  move_step : Nat
  draw_radius : ℚ
  draw_matter : MatterWithColor
  draw_pos_start : ℚ × ℚ
  draw_pos_end : ℚ × ℚ
  query_pos : IVec2

  log : List Ev

/-- The grid-visible effect of executing one pipeline, reading the push
constants from the state exactly as `CASimulator::dispatch` binds them.  The
movement passes write the back buffer from the front buffer; the colour pass
writes only the image; the draw pass overlays the front buffer in place; the
query pass writes only the one-element staging buffer. -/
def passEffect (s : CASimulator) : Pass → CASimulator
  | .fall => { s with matter_out := fallPass s.matter_in }
  | .slide => { s with matter_out := slidePass s.matter_in s.move_step }
  | .color => { s with image := colorPassImage s.matter_in s.image }
  | .draw =>
    { s with
      matter_in :=
        drawPass s.matter_in s.draw_pos_start s.draw_pos_end s.draw_radius
          s.draw_matter.value }
  | .query => { s with query_matter := s.matter_in s.query_pos.x s.query_pos.y }

/-- Embedding of `CASimulator::dispatch` (src/src/ca_simulator.rs
lines 289-325): append one pipeline execution, then, when `swap` is set,
exchange `matter_in` and `matter_out` so the output becomes the next input. -/
def dispatch (s : CASimulator) (p : Pass) (swap : Bool) : CASimulator :=
  let t := passEffect s p
  let t := { t with log := t.log ++ [Ev.dispatched p swap] }
  if swap then { t with matter_in := t.matter_out, matter_out := t.matter_in }
  else t

/-- Embedding of `CASimulator::step_movement` (src/src/ca_simulator.rs
lines 279-286): dispatch a movement pipeline with `swap = true`, then
increment `move_step`. -/
def step_movement (s : CASimulator) (p : Pass) : CASimulator :=
  let t := dispatch s p true
  { t with move_step := t.move_step + 1, log := t.log ++ [Ev.incMove] }

/-- One iteration of the movement loop body in `CASimulator::step`: the fall
pass followed by the slide pass. -/
def movementIter (s : CASimulator) : CASimulator :=
  step_movement (step_movement s .fall) .slide

/-- Embedding of `CASimulator::step` (src/src/ca_simulator.rs lines 255-276):
unless paused, run `move_steps` repetitions of (fall, slide); always dispatch
the colour pipeline once with `swap = false`; finally `sim_step += 1`. -/
def step (s : CASimulator) (move_steps : Nat) (is_paused : Bool) : CASimulator :=
  let t := if is_paused then s else movementIter^[move_steps] s
  let t := dispatch t .color false
  { t with sim_step := t.sim_step + 1, log := t.log ++ [Ev.incSim] }

/-- Embedding of `CASimulator::draw_matter` (src/src/ca_simulator.rs
lines 233-252): store the stroke parameters and the freshly encoded cell value
(the rng sample `p` drives the colour jitter), then dispatch the draw pipeline
with `swap = false`. -/
def draw_matter (s : CASimulator) (start stop : ℚ × ℚ) (radius : ℚ)
    (matter : MatterId) (p : ℚ) : CASimulator :=
  let t :=
    { s with
      draw_pos_start := start
      draw_pos_end := stop
      draw_matter := MatterWithColor.new matter p
      draw_radius := radius }
  dispatch t .draw false

/-- Embedding of `CASimulator::query_matter` (src/src/ca_simulator.rs
lines 208-230): out of bounds yields `None` and leaves the state untouched;
in bounds stores the position, dispatches the query pipeline with
`swap = false`, waits, and reads the staging buffer.  The returned inner
`Option` is the partial byte-to-`MatterId` conversion. -/
def query_matter (s : CASimulator) (pos : IVec2) :
    Option (Option MatterId) × CASimulator :=
  if is_inside pos then
    let t := dispatch { s with query_pos := pos } .query false
    (some (MatterWithColor.fromValue t.query_matter).matter_id, t)
  else (none, s)

/-- Embedding of `device_grid` (src/src/ca_simulator.rs lines 26-38):
`DeviceLocalBuffer::array` allocates `width * height` cells of device-local
memory and writes nothing into them, so the initial contents are whatever the
device memory holds; they are therefore a parameter of the model. -/
def device_grid (contents : Buf) : Buf := contents

/-- Embedding of the state assembled by `CASimulator::new`
(src/src/ca_simulator.rs lines 64-173) after its divisibility asserts pass:
both matter buffers come from `device_grid` (uninitialized, hence the two
content parameters), the staging buffer holds
`MatterWithColor::from(0).value`, and all counters and draw parameters start
at zero. -/
def CASimulator.new (init_in init_out : Buf) : CASimulator where
  matter_in := device_grid init_in
  matter_out := device_grid init_out
  query_matter := (MatterWithColor.fromValue 0).value
  image := fun _ _ => 0
  sim_step := 0
  move_step := 0
  draw_radius := 0
  draw_matter := MatterWithColor.fromValue 0
  draw_pos_start := (0, 0)
  draw_pos_end := (0, 0)
  query_pos := ⟨0, 0⟩
  log := []

/-- The two divisibility asserts at the top of `CASimulator::new`
(src/src/ca_simulator.rs lines 66-67): construction dies unless the canvas
dimensions are multiples of the tile dimensions. -/
def constructionFails (w h tw th : Nat) : Bool :=
  !(w % tw == 0 && h % th == 0)

/-- Guarded construction: `CASimulator::new` either panics on the asserts or
returns the assembled state. -/
def CASimulator.mk? (init_in init_out : Buf) : Option CASimulator :=
  if constructionFails CANVAS_SIZE_X CANVAS_SIZE_Y LOCAL_SIZE_X LOCAL_SIZE_Y
  then none
  else some (CASimulator.new init_in init_out)

/-- Modelled from the spec: the intended initial grid contents (spec 4.2,
"allocates two buffers filled with the encoded Empty cell").  The Rust
constructor does not actually write these contents; see the C9 analysis. -/
def emptyGrid : Buf := fun _ _ => empty_matter

/-- The events produced by one movement substep of `CASimulator::step`. -/
def movementEvents : List Ev :=
  [Ev.dispatched Pass.fall true, Ev.incMove,
    Ev.dispatched Pass.slide true, Ev.incMove]

/-- The events produced by one unpaused `CASimulator::step` call with `n`
movement substeps. -/
def stepEvents (n : Nat) : List Ev :=
  (List.replicate n movementEvents).flatten ++
    [Ev.dispatched Pass.color false, Ev.incSim]

/-- The simulator state at the start of the repository test
`test_example_sandfall` (src/src/ca_simulator.rs lines 381-399), with the
spec-modelled all-Empty initial grid contents. -/
def gravity_s0 : CASimulator := CASimulator.new emptyGrid emptyGrid

/-- The state after `draw_matter(pos, pos, 0.5, Sand)` at `pos = (10, 10)`
with rng sample `p`. -/
def gravity_s1 (p : ℚ) : CASimulator :=
  draw_matter gravity_s0 (10, 10) (10, 10) (1 / 2) MatterId.Sand p

/-- The state after the subsequent `step(1, false)`. -/
def gravity_s2 (p : ℚ) : CASimulator := step (gravity_s1 p) 1 false

/-- A packed rgba value masked to its low byte is the alpha argument masked to
a byte: the three colour channels occupy bits 8 and above. -/
theorem pack_land_255 (r g b a : Nat) :
    u8_rgba_to_u32_rgba r g b a &&& 255 = a &&& 255 := by
  unfold u8_rgba_to_u32_rgba
  apply Nat.eq_of_testBit_eq
  intro i
  simp only [Nat.testBit_and, Nat.testBit_or, Nat.testBit_shiftLeft]
  by_cases h : i < 8
  · have h24 : ¬ (24 ≤ i) := by omega
    have h16 : ¬ (16 ≤ i) := by omega
    have h8 : ¬ (8 ≤ i) := by omega
    simp [h24, h16, h8]
  · have h255 : Nat.testBit 255 i = false := by
      apply Nat.testBit_lt_two_pow
      calc (255 : Nat) < 2 ^ 8 := by norm_num
        _ ≤ 2 ^ i := Nat.pow_le_pow_right (by norm_num) (by omega)
    simp [h255]

/-- The low byte of any encoded cell is the matter discriminant. -/
theorem new_low (m : MatterId) (p : ℚ) :
    (MatterWithColor.new m p).value &&& 255 = m.toByte := by
  have h : ∀ c : Nat × Nat × Nat × Nat,
      u8_rgba_to_u32_rgba c.1 c.2.1 c.2.2.1 m.toByte &&& 255 = m.toByte := by
    intro c
    rw [pack_land_255]
    cases m <;> rfl
  exact h _

/-- An encoded Sand cell is never the canonical empty cell. -/
theorem new_sand_not_empty_cell (p : ℚ) :
    isEmptyCell (MatterWithColor.new MatterId.Sand p).value = false := by
  unfold isEmptyCell
  rw [beq_eq_false_iff_ne]
  intro h
  have h1 := new_low MatterId.Sand p
  rw [h] at h1
  exact absurd h1 (by decide)

/-- For integer cell coordinates, the squared distance to the stamp centre
`(10, 10)` is below `1/4` exactly at the centre cell itself. -/
theorem int_near (x y : Int) :
    (((x : ℚ) - 10) ^ 2 + ((y : ℚ) - 10) ^ 2 < 1 / 4) ↔ (x = 10 ∧ y = 10) := by
  constructor
  · intro h
    have hx : x = 10 := by
      by_contra hx
      have h1 : (1 : ℤ) ≤ (x - 10) ^ 2 := by
        have h2 := Int.one_le_abs (sub_ne_zero.mpr hx)
        nlinarith [sq_abs (x - 10)]
      have h1Q : (1 : ℚ) ≤ ((x : ℚ) - 10) ^ 2 := by
        have h3 : ((1 : ℤ) : ℚ) ≤ (((x - 10) ^ 2 : ℤ) : ℚ) := Int.cast_le.mpr h1
        push_cast at h3
        exact h3
      nlinarith [sq_nonneg ((y : ℚ) - 10)]
    have hy : y = 10 := by
      by_contra hy
      have h1 : (1 : ℤ) ≤ (y - 10) ^ 2 := by
        have h2 := Int.one_le_abs (sub_ne_zero.mpr hy)
        nlinarith [sq_abs (y - 10)]
      have h1Q : (1 : ℚ) ≤ ((y : ℚ) - 10) ^ 2 := by
        have h3 : ((1 : ℤ) : ℚ) ≤ (((y - 10) ^ 2 : ℤ) : ℚ) := Int.cast_le.mpr h1
        push_cast at h3
        exact h3
      nlinarith [sq_nonneg ((x : ℚ) - 10)]
    exact ⟨hx, hy⟩
  · rintro ⟨rfl, rfl⟩
    norm_num

/-- The point stamp of `test_example_sandfall` paints exactly the centre cell:
a radius `1/2` stroke from `(10, 10)` to itself covers `(x, y)` exactly when
`(x, y) = (10, 10)`. -/
theorem floor_half : ⌊(1 / 2 : ℚ)⌋ = 0 := by
  rw [Int.floor_eq_iff]
  constructor
  · norm_num
  · norm_num

/-- The point stamp of `test_example_sandfall` covers squared distances below
`1/4`. -/
theorem draw_thr : ((⌊(1 / 2 : ℚ)⌋ : ℚ) + 1 / 2) ^ 2 = 1 / 4 := by
  rw [floor_half]
  norm_num

/-- The degenerate stroke of `test_example_sandfall` measures plain squared
distance to its centre. -/
theorem seg_point (x y : Int) :
    segDistSq ((x : ℚ), (y : ℚ)) (10, 10) (10, 10)
      = ((x : ℚ) - 10) ^ 2 + ((y : ℚ) - 10) ^ 2 := by
  simp only [segDistSq]
  norm_num

theorem drawPass_single (v : Nat) (x y : Int) :
    drawPass emptyGrid (10, 10) (10, 10) (1 / 2) v x y
      = if x = 10 ∧ y = 10 then v else empty_matter := by
  unfold drawPass
  by_cases h : x = 10 ∧ y = 10
  · obtain ⟨rfl, rfl⟩ := h
    have hc : segDistSq (((10 : Int) : ℚ), ((10 : Int) : ℚ)) (10, 10) (10, 10)
        < ((⌊(1 / 2 : ℚ)⌋ : ℚ) + 1 / 2) ^ 2 := by
      rw [seg_point, draw_thr]
      norm_num
    rw [decide_eq_true hc, Bool.and_true, if_pos (by decide), if_pos ⟨rfl, rfl⟩]
  · have hd : ¬ (segDistSq ((x : ℚ), (y : ℚ)) (10, 10) (10, 10)
        < ((⌊(1 / 2 : ℚ)⌋ : ℚ) + 1 / 2) ^ 2) := by
      rw [seg_point, draw_thr]
      exact fun hlt => h ((int_near x y).mp hlt)
    rw [decide_eq_false hd, Bool.and_false, if_neg (by simp), if_neg h]
    rfl

/-- The stamped grid holds the drawn value at the centre cell. -/
theorem b1010 (v : Nat) :
    drawPass emptyGrid (10, 10) (10, 10) (1 / 2) v 10 10 = v := by
  rw [drawPass_single]
  simp

/-- The stamped grid is empty away from the centre cell. -/
theorem bOff (v : Nat) (x y : Int) (h : ¬ (x = 10 ∧ y = 10)) :
    drawPass emptyGrid (10, 10) (10, 10) (1 / 2) v x y = empty_matter := by
  rw [drawPass_single, if_neg h]

/-- After the fall pass, the stamped cell has vacated. -/
theorem fall1010 (v : Nat) (hv : isEmptyCell v = false) :
    fallPass (drawPass emptyGrid (10, 10) (10, 10) (1 / 2) v) 10 10
      = empty_matter := by
  unfold fallPass
  rw [show (10 : Int) - 1 = 9 from by norm_num,
    show (10 : Int) + 1 = 11 from by norm_num]
  rw [b1010 v, bOff v 10 9 (by norm_num), hv]
  rw [if_neg (by simp), if_pos (by decide)]

/-- After the fall pass, the cell below the stamp holds the grain. -/
theorem fall1009 (v : Nat) (hv : isEmptyCell v = false) :
    fallPass (drawPass emptyGrid (10, 10) (10, 10) (1 / 2) v) 10 9 = v := by
  unfold fallPass
  rw [show (9 : Int) + 1 = 10 from by norm_num,
    show (9 : Int) - 1 = 8 from by norm_num]
  rw [bOff v 10 9 (by norm_num), b1010 v, hv]
  rw [if_pos (by decide), if_pos (by decide)]

/-- After the fall pass, the cell two below the stamp is still empty. -/
theorem fall108 (v : Nat) :
    fallPass (drawPass emptyGrid (10, 10) (10, 10) (1 / 2) v) 10 8
      = empty_matter := by
  unfold fallPass
  rw [show (8 : Int) + 1 = 9 from by norm_num,
    show (8 : Int) - 1 = 7 from by norm_num]
  rw [bOff v 10 8 (by norm_num), bOff v 10 9 (by norm_num)]
  rw [if_pos (by decide), if_neg (by decide)]

/-- After the fall pass, the up-right diagonal neighbour is still empty. -/
theorem fall1111 (v : Nat) :
    fallPass (drawPass emptyGrid (10, 10) (10, 10) (1 / 2) v) 11 11
      = empty_matter := by
  unfold fallPass
  rw [show (11 : Int) + 1 = 12 from by norm_num,
    show (11 : Int) - 1 = 10 from by norm_num]
  rw [bOff v 11 11 (by norm_num), bOff v 11 12 (by norm_num)]
  rw [if_pos (by decide), if_neg (by decide)]

/-- After the fall pass, the up-left diagonal neighbour is still empty. -/
theorem fall911 (v : Nat) :
    fallPass (drawPass emptyGrid (10, 10) (10, 10) (1 / 2) v) 9 11
      = empty_matter := by
  unfold fallPass
  rw [show (11 : Int) + 1 = 12 from by norm_num,
    show (11 : Int) - 1 = 10 from by norm_num]
  rw [bOff v 9 11 (by norm_num), bOff v 9 12 (by norm_num)]
  rw [if_pos (by decide), if_neg (by decide)]

/-- On a grid whose only grain sits at `(10, 9)` with empty space below it,
the slide pass moves nothing at the two cells the scenario queries: the grain
does not slide (its below cell is free, so sliding is not considered) and the
vacated cell receives nothing. -/
theorem slide_scene (F : Buf) (v : Nat) (hv : isEmptyCell v = false)
    (h10 : F 10 10 = empty_matter) (h9 : F 10 9 = v)
    (h8 : F 10 8 = empty_matter) (h11r : F 11 11 = empty_matter)
    (h11l : F 9 11 = empty_matter) :
    slidePass F 1 10 10 = empty_matter ∧ slidePass F 1 10 9 = v := by
  have hd11 : slideDir F 1 11 11 = none := by
    unfold slideDir
    rw [h11r, if_pos (by decide)]
  have hd9l : slideDir F 1 9 11 = none := by
    unfold slideDir
    rw [h11l, if_pos (by decide)]
  have hA10 : acceptedSource F 1 10 10 = none := by
    unfold acceptedSource
    rw [h10, if_neg (by decide)]
    rw [show (10 : Int) + 1 = 11 from by norm_num,
      show (10 : Int) - 1 = 9 from by norm_num]
    rw [hd11, hd9l]
    rfl
  have hD10 : slideDir F 1 10 10 = none := by
    unfold slideDir
    rw [h10, if_pos (by decide)]
  have hA9 : acceptedSource F 1 10 9 = none := by
    unfold acceptedSource
    rw [h9, hv, if_pos (by decide)]
  have hD9 : slideDir F 1 10 9 = none := by
    unfold slideDir
    rw [h9, hv, if_neg (by decide)]
    rw [show (9 : Int) - 1 = 8 from by norm_num]
    rw [h8, if_pos (by decide)]
  constructor
  · unfold slidePass
    rw [hA10, hD10, h10]
  · unfold slidePass
    rw [hA9, hD9, h9]

/-- The value an in-bounds query returns is the decoded low byte of the front
buffer at the queried position. -/
theorem query_inside (s : CASimulator) (a b : Int)
    (h : is_inside ⟨a, b⟩ = true) :
    (query_matter s ⟨a, b⟩).1
      = some (MatterId.fromByte (s.matter_in a b &&& 255)) := by
  unfold query_matter
  rw [if_pos h]
  rfl

/-- One movement iteration appends exactly the fall/slide event block,
advances `move_step` by two and leaves `sim_step` alone. -/
theorem movementIter_props (s : CASimulator) :
    (movementIter s).log = s.log ++ movementEvents ∧
      (movementIter s).move_step = s.move_step + 2 ∧
      (movementIter s).sim_step = s.sim_step := by
  refine ⟨?_, rfl, rfl⟩
  simp [movementIter, step_movement, dispatch, passEffect, movementEvents]

/-- Iterating the movement body `n` times appends `n` fall/slide event blocks,
advances `move_step` by `2 * n` and leaves `sim_step` alone. -/
theorem iterate_props (n : Nat) (s : CASimulator) :
    (movementIter^[n] s).log
        = s.log ++ (List.replicate n movementEvents).flatten ∧
      (movementIter^[n] s).move_step = s.move_step + 2 * n ∧
      (movementIter^[n] s).sim_step = s.sim_step := by
  induction n with
  | zero => simp
  | succ k ih =>
    rw [Function.iterate_succ_apply']
    obtain ⟨hl, hm, hs⟩ := movementIter_props (movementIter^[k] s)
    obtain ⟨il, im, ihs⟩ := ih
    refine ⟨?_, ?_, ?_⟩
    · rw [hl, il, List.replicate_succ', List.flatten_append]
      simp [List.append_assoc]
    · rw [hm, im]
      ring
    · rw [hs, ihs]

/-- C1: Gravity scenario.  After drawing Sand at `(10, 10)` with radius `0.5`
on an otherwise-empty grid (for every rng sample `p`), querying `(10, 10)`
returns `Some(Sand)`; after one `step(move_substeps = 1, paused = false)`,
querying `(10, 10)` returns `Some(Empty)` and querying `(10, 9)` (one row
down, `pos + (0, -1)`) returns `Some(Sand)`: the displacement is exactly one
row. -/
theorem c1_gravity (p : ℚ) :
    (query_matter (gravity_s1 p) ⟨10, 10⟩).1 = some (some MatterId.Sand) ∧
      (query_matter (gravity_s2 p) ⟨10, 10⟩).1 = some (some MatterId.Empty) ∧
      (query_matter (gravity_s2 p) ⟨10, 9⟩).1 = some (some MatterId.Sand) := by
  have hv : isEmptyCell (MatterWithColor.new MatterId.Sand p).value = false :=
    new_sand_not_empty_cell p
  have hvl : (MatterWithColor.new MatterId.Sand p).value &&& 255 = 1 := by
    rw [new_low]
    rfl
  have hslide :=
    slide_scene
      (fallPass (drawPass emptyGrid (10, 10) (10, 10) (1 / 2)
        (MatterWithColor.new MatterId.Sand p).value))
      (MatterWithColor.new MatterId.Sand p).value hv
      (fall1010 _ hv) (fall1009 _ hv) (fall108 _) (fall1111 _) (fall911 _)
  refine ⟨?_, ?_, ?_⟩
  · rw [query_inside (gravity_s1 p) 10 10 (by decide)]
    rw [show (gravity_s1 p).matter_in 10 10
        = (MatterWithColor.new MatterId.Sand p).value from b1010 _]
    rw [hvl]
    rfl
  · rw [query_inside (gravity_s2 p) 10 10 (by decide)]
    rw [show (gravity_s2 p).matter_in 10 10 = empty_matter from hslide.1]
    decide
  · rw [query_inside (gravity_s2 p) 10 9 (by decide)]
    rw [show (gravity_s2 p).matter_in 10 9
        = (MatterWithColor.new MatterId.Sand p).value from hslide.2]
    rw [hvl]
    rfl

/-- The palette colour of Sand after grey-scaling. -/
theorem sand_grey : MatterId.color_rgba_u8 MatterId.Sand = (176, 176, 176, 255) := by
  decide

/-- The jittered Sand colour at rng sample `0` (variation `-1/10`). -/
theorem gen_sand_0 :
    MatterId.gen_variate_color_rgba_u8 MatterId.Sand 0 = (150, 150, 150, 255) := by
  have hf : MatterId.color_rgba_f32 MatterId.Sand
      = (176 / 255, 176 / 255, 176 / 255, 1) := by
    unfold MatterId.color_rgba_f32
    rw [sand_grey]
    norm_num
  unfold MatterId.gen_variate_color_rgba_u8
  rw [hf]
  have h1 : clampQ ((176 : ℚ) / 255 + (-(1 / 10) + 2 / 10 * 0)) 0 1 * 255
      = 301 / 2 := by
    unfold clampQ
    norm_num [min_def, max_def]
  have h2 : ⌊(301 / 2 : ℚ)⌋ = 150 := by
    rw [Int.floor_eq_iff]
    constructor <;> norm_num
  simp only [h1, h2]
  rfl

/-- The jittered Sand colour at rng sample `1/2` (variation `0`). -/
theorem gen_sand_half :
    MatterId.gen_variate_color_rgba_u8 MatterId.Sand (1 / 2)
      = (176, 176, 176, 255) := by
  have hf : MatterId.color_rgba_f32 MatterId.Sand
      = (176 / 255, 176 / 255, 176 / 255, 1) := by
    unfold MatterId.color_rgba_f32
    rw [sand_grey]
    norm_num
  unfold MatterId.gen_variate_color_rgba_u8
  rw [hf]
  have h1 : clampQ ((176 : ℚ) / 255 + (-(1 / 10) + 2 / 10 * (1 / 2))) 0 1 * 255
      = 176 := by
    unfold clampQ
    norm_num [min_def, max_def]
  have h2 : ⌊(176 : ℚ)⌋ = 176 := by
    rw [Int.floor_eq_iff]
    constructor <;> norm_num
  simp only [h1, h2]
  rfl

/-- C2: Codec round-trip.  For every matter id in the palette and every rng
sample, decoding the encoded cell yields the same matter id again; and the
colour bits of two encodings of the same matter id can indeed differ (shown
for Sand at rng samples `0` and `1/2`). -/
theorem c2_roundtrip :
    (∀ (m : MatterId) (p : ℚ), (MatterWithColor.new m p).matter_id = some m) ∧
      MatterWithColor.new MatterId.Sand 0 ≠ MatterWithColor.new MatterId.Sand (1 / 2) := by
  constructor
  · intro m p
    unfold MatterWithColor.matter_id
    rw [new_low]
    cases m <;> rfl
  · intro h
    have hval := congrArg MatterWithColor.value h
    have h0 : (MatterWithColor.new MatterId.Sand 0).value
        = u8_rgba_to_u32_rgba 150 150 150 1 := by
      unfold MatterWithColor.new
      rw [if_pos (by decide), gen_sand_0]
      rfl
    have h5 : (MatterWithColor.new MatterId.Sand (1 / 2)).value
        = u8_rgba_to_u32_rgba 176 176 176 1 := by
      unfold MatterWithColor.new
      rw [if_pos (by decide), gen_sand_half]
      rfl
    rw [h0, h5] at hval
    exact absurd hval (by decide)

/-- C3: Step algorithm and clock discipline.  An unpaused `step(n, false)`
records, in order, `n` repetitions of the fall and slide dispatches, each with
the swap flag set and each immediately followed by a `move_step` increment,
then exactly one colour dispatch with the swap flag clear and no `move_step`
increment; `move_step` advances by exactly `2 * n`.  Every `step` call, paused
or not, increments `sim_step` by exactly one, and neither counter is ever
decreased by `step`, `draw_matter` or `query_matter`. -/
theorem c3_step_clock (s : CASimulator) (n : Nat) :
    (step s n false).log = s.log ++ stepEvents n ∧
      (step s n false).move_step = s.move_step + 2 * n ∧
      (∀ paused, (step s n paused).sim_step = s.sim_step + 1) ∧
      (∀ paused, s.move_step ≤ (step s n paused).move_step ∧
        s.sim_step ≤ (step s n paused).sim_step) ∧
      (∀ a b r m p, (draw_matter s a b r m p).sim_step = s.sim_step ∧
        (draw_matter s a b r m p).move_step = s.move_step) ∧
      (∀ pos, ((query_matter s pos).2).sim_step = s.sim_step ∧
        ((query_matter s pos).2).move_step = s.move_step) := by
  obtain ⟨il, im, ihs⟩ := iterate_props n s
  refine ⟨?_, ?_, ?_, ?_, ?_, ?_⟩
  · show (dispatch (movementIter^[n] s) Pass.color false).log ++ [Ev.incSim]
        = s.log ++ stepEvents n
    simp [dispatch, passEffect, il, stepEvents, List.append_assoc]
  · show (dispatch (movementIter^[n] s) Pass.color false).move_step
        = s.move_step + 2 * n
    simpa [dispatch, passEffect] using im
  · intro paused
    cases paused
    · show (movementIter^[n] s).sim_step + 1 = s.sim_step + 1
      rw [ihs]
    · rfl
  · intro paused
    cases paused
    · constructor
      · show s.move_step ≤ (movementIter^[n] s).move_step
        rw [im]
        omega
      · show s.sim_step ≤ (movementIter^[n] s).sim_step + 1
        rw [ihs]
        omega
    · exact ⟨Nat.le_refl _, Nat.le_succ _⟩
  · intro a b r m p
    exact ⟨rfl, rfl⟩
  · intro pos
    unfold query_matter
    by_cases h : is_inside pos = true
    · rw [if_pos h]
      exact ⟨rfl, rfl⟩
    · rw [if_neg h]
      exact ⟨rfl, rfl⟩

/-- C4: Paused step frame property.  A paused `step(n, true)` executes no
movement pass: both matter buffers and their roles are left untouched and
`move_step` is unchanged, so any position queries as the same matter before
and after; the colouring pass is still dispatched exactly once (with no swap),
rewriting the OutputImage from the front buffer, and `sim_step` still
advances. -/
theorem c4_paused (s : CASimulator) (n : Nat) :
    (step s n true).matter_in = s.matter_in ∧
      (step s n true).matter_out = s.matter_out ∧
      (step s n true).log = s.log ++ [Ev.dispatched Pass.color false, Ev.incSim] ∧
      (step s n true).move_step = s.move_step ∧
      (step s n true).sim_step = s.sim_step + 1 ∧
      (step s n true).image = colorPassImage s.matter_in s.image ∧
      (∀ pos, (query_matter (step s n true) pos).1 = (query_matter s pos).1) := by
  refine ⟨rfl, rfl, ?_, rfl, rfl, rfl, ?_⟩
  · simp [step, dispatch, passEffect]
  · intro pos
    unfold query_matter
    by_cases h : is_inside pos = true
    · rw [if_pos h, if_pos h]
      rfl
    · rw [if_neg h, if_neg h]

/-- An in-bounds query (general position form) returns the decoded front
buffer value. -/
theorem query_pos_inside (s : CASimulator) (pos : IVec2)
    (h : is_inside pos = true) :
    (query_matter s pos).1
      = some (MatterWithColor.fromValue (s.matter_in pos.x pos.y)).matter_id := by
  unfold query_matter
  rw [if_pos h]
  rfl

/-- An out-of-bounds query returns `none`. -/
theorem query_pos_outside (s : CASimulator) (pos : IVec2)
    (h : ¬ is_inside pos = true) :
    (query_matter s pos).1 = none := by
  unfold query_matter
  rw [if_neg h]

/-- C5: Query bounds.  For every simulator state and position, `query_matter`
returns `None` exactly when the position lies outside `[0, 512) x [0, 512)`,
and for every in-bounds position it returns `Some` of the decoded matter id of
the current front buffer at that position. -/
theorem c5_query_bounds (s : CASimulator) (pos : IVec2) :
    ((query_matter s pos).1 = none ↔
      (pos.x < 0 ∨ (CANVAS_SIZE_X : Int) ≤ pos.x ∨ pos.y < 0 ∨
        (CANVAS_SIZE_Y : Int) ≤ pos.y)) ∧
      (0 ≤ pos.x → pos.x < (CANVAS_SIZE_X : Int) → 0 ≤ pos.y →
        pos.y < (CANVAS_SIZE_Y : Int) →
        (query_matter s pos).1
          = some (MatterWithColor.fromValue (s.matter_in pos.x pos.y)).matter_id) := by
  have hiff : is_inside pos = true ↔
      (0 ≤ pos.x ∧ pos.x < (CANVAS_SIZE_X : Int) ∧ 0 ≤ pos.y ∧
        pos.y < (CANVAS_SIZE_Y : Int)) := by
    unfold is_inside
    simp [and_assoc]
  by_cases h : is_inside pos = true
  · obtain ⟨h1, h2, h3, h4⟩ := hiff.mp h
    refine ⟨?_, fun _ _ _ _ => query_pos_inside s pos h⟩
    rw [query_pos_inside s pos h]
    constructor
    · intro hc
      exact absurd hc (Option.some_ne_none _)
    · intro hb
      simp only [CANVAS_SIZE_X, CANVAS_SIZE_Y] at h2 h4 hb
      exact absurd hb (by omega)
  · have h5 : ¬ (0 ≤ pos.x ∧ pos.x < (CANVAS_SIZE_X : Int) ∧ 0 ≤ pos.y ∧
        pos.y < (CANVAS_SIZE_Y : Int)) := fun hc => h (hiff.mpr hc)
    refine ⟨?_, fun h1 h2 h3 h4 => absurd (hiff.mpr ⟨h1, h2, h3, h4⟩) h⟩
    rw [query_pos_outside s pos h]
    constructor
    · intro _
      simp only [CANVAS_SIZE_X, CANVAS_SIZE_Y] at h5 ⊢
      omega
    · intro _
      rfl

/-- C5 witness: the bounds theorem applied at a concrete state and in-bounds
position. -/
theorem c5_witness :
    (query_matter (CASimulator.new emptyGrid emptyGrid) ⟨10, 10⟩).1
      = some (MatterWithColor.fromValue
          ((CASimulator.new emptyGrid emptyGrid).matter_in 10 10)).matter_id :=
  (c5_query_bounds (CASimulator.new emptyGrid emptyGrid) ⟨10, 10⟩).2
    (by decide) (by decide) (by decide) (by decide)

/-- C6: Construction coverage check.  The divisibility check at the top of
`CASimulator::new` fails exactly when the canvas width is not divisible by the
tile width or the canvas height is not divisible by the tile height (for
positive tile sizes, the only ones on which the Rust `%` is defined), and with
the configured values (512 x 512 canvas, 32 x 32 tiles) it succeeds, so
guarded construction always returns the assembled simulator. -/
theorem c6_construction :
    (∀ w h tw th : Nat, 0 < tw → 0 < th →
      (constructionFails w h tw th = true ↔ (w % tw ≠ 0 ∨ h % th ≠ 0))) ∧
      constructionFails CANVAS_SIZE_X CANVAS_SIZE_Y LOCAL_SIZE_X LOCAL_SIZE_Y
        = false ∧
      (∀ init_in init_out, CASimulator.mk? init_in init_out
        = some (CASimulator.new init_in init_out)) := by
  refine ⟨?_, by decide, ?_⟩
  · intro w h tw th _ _
    unfold constructionFails
    simp [not_and_or]
  · intro init_in init_out
    unfold CASimulator.mk?
    rw [if_neg (by decide)]

/-- C6 witness: the divisibility characterisation applied to the invalid
configuration `(33, 512, 32, 32)`. -/
theorem c6_witness : constructionFails 33 512 32 32 = true :=
  (c6_construction.1 33 512 32 32 (by decide) (by decide)).mpr
    (Or.inl (by decide))

/-- C7: Empty encoding is canonical and deterministic.  For every rng state,
encoding `Empty` yields the fixed cell `0xfefefe00` (the grey-scaled
background colour `0xfefefe` packed with matter id `0`, no jitter applied),
and decoding it yields `Empty` again. -/
theorem c7_empty_canonical (p : ℚ) :
    MatterWithColor.new MatterId.Empty p = MatterWithColor.fromValue 0xfefefe00 ∧
      (MatterWithColor.new MatterId.Empty p).matter_id = some MatterId.Empty := by
  have h : MatterWithColor.new MatterId.Empty p
      = MatterWithColor.fromValue 0xfefefe00 := by
    unfold MatterWithColor.new
    rw [if_neg (by simp)]
    decide
  refine ⟨h, ?_⟩
  rw [h]
  decide

/-- C8 counterexample: the byte-to-matter conversion is not total.  The Rust
`From<u8>` impl is an unchecked `transmute`, so an out-of-range byte such as
`3` has no defined result (modelled `none`): it is neither clamped nor turned
into a failure. -/
theorem c8_counterexample :
    ¬ (∀ b : Nat, b < 256 → (MatterId.fromByte b).isSome = true) := by
  intro h
  exact absurd (h 3 (by norm_num)) (by decide)

/-- C8 (amended): decode is a pure mask of the low byte — any two cell values
with equal low bytes decode identically — and the raw-byte conversion is
defined exactly on the three discriminants the codec itself produces; every
byte from `3` up is converted by the unchecked transmute, whose result is
undefined rather than clamped or checked. -/
theorem c8_low_byte :
    (∀ v w : Nat, v &&& 255 = w &&& 255 →
      (MatterWithColor.fromValue v).matter_id
        = (MatterWithColor.fromValue w).matter_id) ∧
      (∀ m : MatterId, MatterId.fromByte m.toByte = some m) ∧
      (∀ b : Nat, 3 ≤ b → MatterId.fromByte b = none) := by
  refine ⟨?_, ?_, ?_⟩
  · intro v w hvw
    unfold MatterWithColor.matter_id MatterWithColor.fromValue
    rw [hvw]
  · intro m
    cases m <;> rfl
  · intro b hb
    obtain ⟨n, rfl⟩ : ∃ n, b = n + 3 := ⟨b - 3, by omega⟩
    rfl

/-- C8 witness: two cells sharing the low byte decode identically, and byte
`7` has no defined conversion. -/
theorem c8_witness :
    (MatterWithColor.fromValue 0xaabbcc01).matter_id
        = (MatterWithColor.fromValue 0x00000001).matter_id ∧
      MatterId.fromByte 7 = none :=
  ⟨c8_low_byte.1 0xaabbcc01 0x00000001 (by decide), c8_low_byte.2.2 7 (by norm_num)⟩

/-- C9: the constructor does not establish the claimed fill postcondition.
`device_grid` allocates uninitialized device memory and `CASimulator::new`
never writes the encoded Empty cell into either buffer, so there are initial
memory contents (here: every cell holding the raw value `1`) under which the
very first query does not return `Some(Empty)` and the cells do not hold the
encoded Empty value — contradicting both the claim and the first assertion of
the repository test `test_example_sandfall`. -/
theorem c9_no_fill :
    ∃ init : Buf,
      (query_matter (CASimulator.new init init) ⟨10, 10⟩).1
          ≠ some (some MatterId.Empty) ∧
        (CASimulator.new init init).matter_in 0 0 ≠ empty_matter := by
  refine ⟨fun _ _ => 1, ?_, ?_⟩
  · rw [query_inside _ 10 10 (by decide)]
    decide
  · decide

/-- C10: Query is non-mutating on simulation state.  For every in-bounds
position, `query_matter` dispatches the query pipeline with `swap = false`,
so the buffer roles and contents, both counters, all draw parameters and the
image are unchanged; the only fields it writes are `query_pos` and the
one-element staging buffer, and the returned value is the decoded front-buffer
cell. -/
theorem c10_query_pure (s : CASimulator) (pos : IVec2)
    (h : is_inside pos = true) :
    (query_matter s pos).2.log = s.log ++ [Ev.dispatched Pass.query false] ∧
      (query_matter s pos).2.matter_in = s.matter_in ∧
      (query_matter s pos).2.matter_out = s.matter_out ∧
      (query_matter s pos).2.sim_step = s.sim_step ∧
      (query_matter s pos).2.move_step = s.move_step ∧
      (query_matter s pos).2.draw_radius = s.draw_radius ∧
      (query_matter s pos).2.draw_matter = s.draw_matter ∧
      (query_matter s pos).2.draw_pos_start = s.draw_pos_start ∧
      (query_matter s pos).2.draw_pos_end = s.draw_pos_end ∧
      (query_matter s pos).2.image = s.image ∧
      (query_matter s pos).2.query_pos = pos ∧
      (query_matter s pos).2.query_matter = s.matter_in pos.x pos.y ∧
      (query_matter s pos).1
        = some (MatterWithColor.fromValue (s.matter_in pos.x pos.y)).matter_id := by
  unfold query_matter
  rw [if_pos h]
  exact ⟨rfl, rfl, rfl, rfl, rfl, rfl, rfl, rfl, rfl, rfl, rfl, rfl, rfl⟩

/-- C10 witness: the purity theorem applied at a concrete state and
position. -/
theorem c10_witness :
    (query_matter (CASimulator.new emptyGrid emptyGrid) ⟨5, 5⟩).2.matter_in
      = (CASimulator.new emptyGrid emptyGrid).matter_in :=
  (c10_query_pure (CASimulator.new emptyGrid emptyGrid) ⟨5, 5⟩ (by decide)).2.1

end CST
